import Mathlib

/-!
Verification of the publish pipeline of `modules/modbus_datalogger/src/publish.py`.

The Python module is shallowly embedded as follows.

* The SQLite `readings` table is a list of `Reading` rows (id, timestamp,
  data, is_published).  The two SQL statements the module issues are embedded
  by their SQL semantics: the `SELECT ... WHERE is_published = 0 ORDER BY
  timestamp ASC LIMIT ?` of `fetch_unpublished_data` becomes
  filter-sort-take, and the single `UPDATE readings SET is_published = 1
  WHERE id IN (...)` of `mark_data_as_published` becomes a map over the rows.
  A `sqlite3.Error` raised by the driver is modelled by a boolean failure
  flag passed to each store operation; per SQLite semantics a failing
  statement inside the `with sqlite3.connect(...)` block leaves the table
  unchanged (the context manager rolls back, and a single UPDATE statement
  is atomic), so the error branch returns the store unmodified, exactly as
  the Python except-branch leaves it.
* `requests.post` plus `response.raise_for_status()` are external
  collaborators; their observable outcome for the one request a call makes
  is an `HttpResult`: either a raised `requests.exceptions.RequestException`
  (transport error / timeout) or a completed response with a status code.
  `raise_for_status` raises exactly for 400 <= code < 600.
* `json.loads` is an external collaborator, modelled by a predicate
  `parses : String -> Bool` saying which payload strings are valid JSON;
  the list comprehension in `publish_to_api` fails iff some payload does
  not parse, in which case the function returns before any request.
* The paho MQTT client is an external collaborator modelled by `MqttEnv`:
  whether `connect` succeeds, and for each message index whether
  `wait_for_publish(timeout=5)` ends with `is_published()` true.
* `main` is embedded from after the two config files are loaded: a
  `configsOk` flag folds the three fatal `sys.exit(1)` config branches
  (missing file, bad JSON, missing `db_path`).  After that point the Python
  function always returns normally, so the embedded run's exit code is 0 on
  every path of the modelled region.
-/

namespace Publish

/-- A row of the `readings` table: `id`, `timestamp` (ISO-8601 strings
compare lexicographically in SQLite; we model the timestamp as a `Nat`
with the same total order), the serialized `data` payload, and the
`is_published` flag (default 0). -/
structure Reading where
  id : Nat
  timestamp : Nat
  data : String
  is_published : Bool
deriving DecidableEq, Repr

/-- The `readings` table. -/
abbrev Store := List Reading

/-- Insert a row into a list sorted by ascending timestamp. -/
def insertByTs (r : Reading) : List Reading → List Reading
  | [] => [r]
  | x :: xs => if r.timestamp ≤ x.timestamp then r :: x :: xs else x :: insertByTs r xs

/-- Sort rows by ascending timestamp (the `ORDER BY timestamp ASC` of the
fetch query; SQLite leaves the relative order of equal keys unspecified, so
any deterministic sort is a faithful embedding). -/
def sortByTs : List Reading → List Reading
  | [] => []
  | x :: xs => insertByTs x (sortByTs xs)

/-- `fetch_unpublished_data(db_path, limit=50)` (publish.py lines 36-58):
`SELECT id, data FROM readings WHERE is_published = 0 ORDER BY timestamp ASC
LIMIT ?`.  On `sqlite3.Error` (`fetchErr`) the except-branch prints to
stderr and returns `[]`. -/
def fetch_unpublished_data (fetchErr : Bool) (store : Store) (limit : Nat) :
    List (Nat × String) :=
  if fetchErr then []
  else
    ((sortByTs (store.filter (fun r => !r.is_published))).take limit).map
      (fun r => (r.id, r.data))

/-- `mark_data_as_published(db_path, record_ids)` (publish.py lines 60-81):
empty `record_ids` returns `True` at once; otherwise a single
`UPDATE readings SET is_published = 1 WHERE id IN (...)` runs and is
committed.  On `sqlite3.Error` (`markErr`) the transaction has no effect
(rolled back / never applied) and the function returns `False`.
Result: (returned boolean, table afterwards). -/
def mark_data_as_published (markErr : Bool) (store : Store) (record_ids : List Nat) :
    Bool × Store :=
  if record_ids.isEmpty then (true, store)
  else if markErr then (false, store)
  else
    (true,
     store.map (fun r =>
       if record_ids.contains r.id then
         { r with is_published := true }
       else r))

/-- Configuration of one API endpoint (`api_endpoints` entry of the publish
config).  `url` and `api_key` are `Option String` because `dict.get` yields
`None` when absent; the Python truthiness test `if not url` also treats the
empty string as missing. -/
structure ApiConfig where
  enabled : Bool
  url : Option String
  api_key : Option String
  timeout_seconds : Nat
deriving DecidableEq, Repr

/-- Configuration of one MQTT broker (`mqtt_brokers` entry). -/
structure MqttConfig where
  enabled : Bool
  host : Option String
  port : Nat
  topic_prefix : Option String
  username : Option String
  password : Option String
deriving DecidableEq, Repr

/-- Python truthiness of an optional string: `None` and `""` are falsy. -/
def strPresent : Option String → Bool
  | none => false
  | some s => !s.isEmpty

/-- Outcome of the single `requests.post` call an API publish makes:
either the request raised `requests.exceptions.RequestException`
(connection error / timeout / ...), or it completed with a status code. -/
inductive HttpResult where
  | transportError : HttpResult
  | status : Nat → HttpResult
deriving DecidableEq, Repr

/-- `response.raise_for_status()` raises `HTTPError` exactly for
4xx/5xx status codes. -/
def raiseForStatusRaises (code : Nat) : Bool :=
  decide (400 ≤ code ∧ code < 600)

/-- Result of one `publish_to_api` call: the returned boolean, and whether
the HTTP request was actually issued. -/
structure ApiCallResult where
  success : Bool
  requestIssued : Bool
deriving DecidableEq, Repr

/-- `publish_to_api(api_config, data_payloads)` (publish.py lines 83-132).
Order of the source: disabled check, missing `url`/`api_key` check,
serialization of every payload via `json.loads` (failure returns before any
request), then the single POST; success iff `raise_for_status` does not
raise.  `parses` models which strings `json.loads` accepts; `res` is the
outcome the network would give the request. -/
def publish_to_api (parses : String → Bool) (api_config : ApiConfig)
    (res : HttpResult) (data_payloads : List (Nat × String)) : ApiCallResult :=
  if !api_config.enabled then ⟨true, false⟩
  else if !(strPresent api_config.url) || !(strPresent api_config.api_key) then
    ⟨false, false⟩
  else if !(data_payloads.all (fun row => parses row.2)) then ⟨false, false⟩
  else
    match res with
    | HttpResult.transportError => ⟨false, true⟩
    | HttpResult.status code => ⟨!raiseForStatusRaises code, true⟩

/-- Behaviour of the paho MQTT collaborator for one `publish_to_mqtt` call:
whether `client.connect` succeeds, and, per message index in the batch,
whether `wait_for_publish(timeout=5)` ends with `is_published()` true
(message confirmed within the bound). -/
structure MqttEnv where
  connectOk : Bool
  ack : Nat → Bool

/-- The per-record publish loop of `publish_to_mqtt` (lines 172-179),
starting at message index `i`: publish with QoS 1, wait for confirmation;
an unconfirmed message raises, aborting the loop.  Returns (loop completed
without raising, records whose messages were confirmed by the broker). -/
def mqttLoop (ack : Nat → Bool) : Nat → List (Nat × String) → Bool × List (Nat × String)
  | _, [] => (true, [])
  | i, r :: rs =>
    if ack i then
      let rest := mqttLoop ack (i + 1) rs
      (rest.1, r :: rest.2)
    else (false, [])

/-- `publish_to_mqtt(mqtt_config, data_payloads)` (publish.py lines
134-191).  Order of the source: disabled check, missing
`host`/`topic_prefix` check, connect (failure is caught and returns
`False`), then one QoS-1 publish per record with a bounded
`wait_for_publish`; any unconfirmed message raises and the except-branch
returns `False`.  The `finally` block always disconnects the client.
Returns (returned boolean, records confirmed by the broker). -/
def publish_to_mqtt (mqtt_config : MqttConfig) (env : MqttEnv)
    (data_payloads : List (Nat × String)) : Bool × List (Nat × String) :=
  if !mqtt_config.enabled then (true, [])
  else if !(strPresent mqtt_config.host) || !(strPresent ( MqttConfig.topic_prefix mqtt_config)) then
    (false, [])
  else if !env.connectOk then (false, [])
  else mqttLoop env.ack 0 data_payloads

/-- The API loop of `main` (publish.py lines 231-238): call
`publish_to_api` for each configured endpoint in order, breaking at the
first `False`.  Returns (all calls so far succeeded, number of
`publish_to_api` invocations made). -/
def runApis (parses : String → Bool) :
    List (ApiConfig × HttpResult) → List (Nat × String) → Bool × Nat
  | [], _ => (true, 0)
  | (cfg, res) :: rest, data =>
    if (publish_to_api parses cfg res data).success then
      let r := runApis parses rest data
      (r.1, r.2 + 1)
    else (false, 1)

/-- The MQTT loop of `main` (publish.py lines 243-250): call
`publish_to_mqtt` for each configured broker in order, breaking at the
first `False`.  Returns (all calls so far succeeded, number of
`publish_to_mqtt` invocations made). -/
def runMqtts : List (MqttConfig × MqttEnv) → List (Nat × String) → Bool × Nat
  | [], _ => (true, 0)
  | (cfg, env) :: rest, data =>
    if (publish_to_mqtt cfg env data).1 then
      let r := runMqtts rest data
      (r.1, r.2 + 1)
    else (false, 1)

/-- Steps 4-5 of `main`: the API loop, then — only if every API call
succeeded — the MQTT loop.  Returns (`all_endpoints_succeeded`, number of
API calls, number of MQTT calls). -/
def dispatch (parses : String → Bool) (apis : List (ApiConfig × HttpResult))
    (mqtts : List (MqttConfig × MqttEnv)) (data : List (Nat × String)) :
    Bool × Nat × Nat :=
  let a := runApis parses apis data
  if a.1 then
    let m := runMqtts mqtts data
    (m.1, a.2, m.2)
  else (false, a.2, 0)

/-- The boolean each configured sink call would return on this batch, in
dispatch order: every API endpoint, then every MQTT broker. -/
def sinkOutcomes (parses : String → Bool) (apis : List (ApiConfig × HttpResult))
    (mqtts : List (MqttConfig × MqttEnv)) (data : List (Nat × String)) : List Bool :=
  apis.map (fun p => (publish_to_api parses p.1 p.2 data).success)
    ++ mqtts.map (fun p => (publish_to_mqtt p.1 p.2 data).1)

/-- Observable outcome of one `main` run: process exit code, the fetched
batch, how many `publish_to_api` / `publish_to_mqtt` calls were made, the
argument of the `mark_data_as_published` call if it was made, and the
`readings` table afterwards. -/
structure RunResult where
  exitCode : Nat
  fetched : List (Nat × String)
  apiCalls : Nat
  mqttCalls : Nat
  markedIds : Option (List Nat)
  store : Store
deriving Repr

/-- Steps 3-6 of `main` (publish.py lines 219-257), after the configs
loaded: fetch a batch of at most 50; if empty, return at once; otherwise
dispatch to every sink and, exactly when `all_endpoints_succeeded`, call
`mark_data_as_published` with the ids of the fetched batch (its returned
boolean is ignored by `main`). -/
def mainCore (parses : String → Bool) (apis : List (ApiConfig × HttpResult))
    (mqtts : List (MqttConfig × MqttEnv)) (fetchErr markErr : Bool)
    (store : Store) : RunResult :=
  let unpublished_data := fetch_unpublished_data fetchErr store 50
  if unpublished_data.isEmpty then
    ⟨0, unpublished_data, 0, 0, none, store⟩
  else
    let record_ids := unpublished_data.map Prod.fst
    let d := dispatch parses apis mqtts unpublished_data
    if d.1 then
      ⟨0, unpublished_data, d.2.1, d.2.2, some record_ids,
        (mark_data_as_published markErr store record_ids).2⟩
    else
      ⟨0, unpublished_data, d.2.1, d.2.2, none, store⟩

/-- `main()` (publish.py lines 194-259).  `configsOk` folds the fatal
config branches (steps 1-2: missing config file, malformed JSON, missing
`db_path`), each of which calls `sys.exit(1)` before touching the store;
after them `main` always returns normally (exit status 0). -/
def main (configsOk : Bool) (parses : String → Bool)
    (apis : List (ApiConfig × HttpResult)) (mqtts : List (MqttConfig × MqttEnv))
    (fetchErr markErr : Bool) (store : Store) : RunResult :=
  if configsOk then mainCore parses apis mqtts fetchErr markErr store
  else ⟨1, [], 0, 0, none, store⟩

/-- The ids of the rows whose `is_published` flag is still 0. -/
def unpublishedIds (store : Store) : List Nat :=
  (store.filter (fun r => !r.is_published)).map (fun r => r.id)

/-! ### Concrete fixtures used in witnesses and counterexamples -/

/-- A store with a single unpublished reading. -/
def storeOne : Store := [⟨1, 0, "a", false⟩]

/-- A store with five unpublished readings (the scenario of the
all-success test property). -/
def storeFive : Store :=
  [⟨1, 0, "a", false⟩, ⟨2, 1, "b", false⟩, ⟨3, 2, "c", false⟩,
   ⟨4, 3, "d", false⟩, ⟨5, 4, "e", false⟩]

/-- A fully configured, enabled API endpoint. -/
def apiGood : ApiConfig := ⟨true, some "u", some "k", 10⟩

/-- An enabled API endpoint whose `url` is missing. -/
def apiNoUrl : ApiConfig := ⟨true, none, some "k", 10⟩

/-- A fully configured, enabled MQTT broker. -/
def mqttGood : MqttConfig := ⟨true, some "h", 1883, some "t", none, none⟩

/-- An MQTT collaborator that connects and confirms every message. -/
def envAllAck : MqttEnv := ⟨true, fun _ => true⟩

/-- An MQTT collaborator that connects, confirms message 0, but never
confirms message 1 within the bound. -/
def envFailSecond : MqttEnv := ⟨true, fun j => decide (j ≠ 1)⟩

/-- A JSON collaborator accepting every payload string. -/
def parsesAll : String → Bool := fun _ => true

/-- A JSON collaborator rejecting exactly the payload string "bad". -/
def parsesNotBad : String → Bool := fun s => !(s == "bad")

/-- A store whose single unpublished reading carries the unparsable
payload "bad". -/
def storeBadJson : Store := [⟨1, 0, "bad", false⟩]

/-- An enabled MQTT broker whose `host` is missing. -/
def mqttNoHost : MqttConfig := ⟨true, none, 1883, some "t", none, none⟩

/-! ### Helper lemmas -/

/-- Number of iterations a break-on-first-false loop performs over the
given outcome list. -/
def shortCircuitCount : List Bool → Nat
  | [] => 0
  | b :: rest => if b then shortCircuitCount rest + 1 else 1

lemma scc_all_true (xs : List Bool) (h : xs.all (fun b => b) = true) :
    shortCircuitCount xs = xs.length := by
  induction xs with
  | nil => rfl
  | cons b xs ih =>
    simp only [List.all_cons, Bool.and_eq_true] at h
    simp [shortCircuitCount, h.1, ih h.2]

lemma scc_append (xs ys : List Bool) :
    shortCircuitCount (xs ++ ys)
      = if xs.all (fun b => b) then xs.length + shortCircuitCount ys
        else shortCircuitCount xs := by
  induction xs with
  | nil => simp [shortCircuitCount]
  | cons b xs ih =>
    cases b with
    | false => simp [shortCircuitCount]
    | true =>
      by_cases h : xs.all (fun b => b) = true <;>
        simp [shortCircuitCount, ih, h, Nat.add_assoc, Nat.add_comm 1]

lemma scc_first_false (i : Nat) (rest : List Bool) :
    shortCircuitCount (List.replicate i true ++ false :: rest) = i + 1 := by
  induction i with
  | zero => simp [shortCircuitCount]
  | succ n ih => simp [List.replicate_succ, shortCircuitCount, ih]

lemma all_first_false (i : Nat) (rest : List Bool) :
    (List.replicate i true ++ false :: rest).all (fun b => b) = false := by
  simp

lemma runApis_fst (parses : String → Bool) (apis : List (ApiConfig × HttpResult))
    (data : List (Nat × String)) :
    (runApis parses apis data).1
      = (apis.map (fun p => (publish_to_api parses p.1 p.2 data).success)).all
          (fun b => b) := by
  induction apis with
  | nil => rfl
  | cons p rest ih =>
    obtain ⟨cfg, res⟩ := p
    by_cases h : (publish_to_api parses cfg res data).success = true <;>
      simp [runApis, h, ih]

lemma runApis_snd (parses : String → Bool) (apis : List (ApiConfig × HttpResult))
    (data : List (Nat × String)) :
    (runApis parses apis data).2
      = shortCircuitCount
          (apis.map (fun p => (publish_to_api parses p.1 p.2 data).success)) := by
  induction apis with
  | nil => rfl
  | cons p rest ih =>
    obtain ⟨cfg, res⟩ := p
    by_cases h : (publish_to_api parses cfg res data).success = true <;>
      simp [runApis, shortCircuitCount, h, ih]

lemma runMqtts_fst (mqtts : List (MqttConfig × MqttEnv))
    (data : List (Nat × String)) :
    (runMqtts mqtts data).1
      = (mqtts.map (fun p => (publish_to_mqtt p.1 p.2 data).1)).all (fun b => b) := by
  induction mqtts with
  | nil => rfl
  | cons p rest ih =>
    obtain ⟨cfg, env⟩ := p
    by_cases h : (publish_to_mqtt cfg env data).1 = true <;>
      simp [runMqtts, h, ih]

lemma runMqtts_snd (mqtts : List (MqttConfig × MqttEnv))
    (data : List (Nat × String)) :
    (runMqtts mqtts data).2
      = shortCircuitCount (mqtts.map (fun p => (publish_to_mqtt p.1 p.2 data).1)) := by
  induction mqtts with
  | nil => rfl
  | cons p rest ih =>
    obtain ⟨cfg, env⟩ := p
    by_cases h : (publish_to_mqtt cfg env data).1 = true <;>
      simp [runMqtts, shortCircuitCount, h, ih]

lemma dispatch_fst (parses : String → Bool) (apis : List (ApiConfig × HttpResult))
    (mqtts : List (MqttConfig × MqttEnv)) (data : List (Nat × String)) :
    (dispatch parses apis mqtts data).1
      = (sinkOutcomes parses apis mqtts data).all (fun b => b) := by
  simp only [dispatch, sinkOutcomes, List.all_append, ← runApis_fst, ← runMqtts_fst]
  by_cases h : (runApis parses apis data).1 = true <;> simp [h]

lemma dispatch_count (parses : String → Bool) (apis : List (ApiConfig × HttpResult))
    (mqtts : List (MqttConfig × MqttEnv)) (data : List (Nat × String)) :
    (dispatch parses apis mqtts data).2.1 + (dispatch parses apis mqtts data).2.2
      = shortCircuitCount (sinkOutcomes parses apis mqtts data) := by
  simp only [sinkOutcomes]
  rw [scc_append]
  by_cases h : (runApis parses apis data).1 = true
  · have hall : (apis.map
        (fun p => (publish_to_api parses p.1 p.2 data).success)).all (fun b => b)
          = true := by rw [← runApis_fst]; exact h
    simp [dispatch, h, hall, runApis_snd, runMqtts_snd,
      scc_all_true _ hall]
  · have hall : (apis.map
        (fun p => (publish_to_api parses p.1 p.2 data).success)).all (fun b => b)
          = false := by
      rw [← runApis_fst]; exact Bool.eq_false_iff.mpr h
    simp [dispatch, h, hall, runApis_snd]

lemma mark_store_cases (markErr : Bool) (store : Store) (ids : List Nat) :
    (mark_data_as_published markErr store ids).2 = store
      ∨ (mark_data_as_published markErr store ids).2
          = store.map (fun r =>
              if ids.contains r.id then { r with is_published := true } else r) := by
  unfold mark_data_as_published
  by_cases h1 : ids.isEmpty = true
  · left; simp [h1]
  · by_cases h2 : markErr = true
    · left; simp [h1, h2]
    · right; simp [h1, h2]

lemma mark_fail_noop (markErr : Bool) (store : Store) (ids : List Nat)
    (h : (mark_data_as_published markErr store ids).1 = false) :
    (mark_data_as_published markErr store ids).2 = store := by
  unfold mark_data_as_published at *
  by_cases h1 : ids.isEmpty = true
  · simp [h1]
  · by_cases h2 : markErr = true
    · simp [h1, h2]
    · simp [h1, h2] at h

lemma unpub_mark_subset (markErr : Bool) (store : Store) (ids : List Nat) (i : Nat)
    (h : i ∈ unpublishedIds (mark_data_as_published markErr store ids).2) :
    i ∈ unpublishedIds store := by
  rcases mark_store_cases markErr store ids with hc | hc
  · rwa [hc] at h
  · rw [hc] at h
    simp only [unpublishedIds, List.mem_map, List.mem_filter] at h ⊢
    obtain ⟨r, ⟨hr, hpub⟩, hid⟩ := h
    obtain ⟨r0, hr0, hfr⟩ := hr
    by_cases hcont : ids.contains r0.id = true
    · rw [hcont] at hfr
      simp at hfr
      rw [← hfr] at hpub
      simp at hpub
    · rw [Bool.eq_false_iff.mpr hcont] at hfr
      simp at hfr
      exact ⟨r0, ⟨hr0, by rw [hfr]; exact hpub⟩, by rw [hfr]; exact hid⟩

lemma mark_removes (store : Store) (ids : List Nat) (i : Nat) (hi : i ∈ ids) :
    i ∉ unpublishedIds (mark_data_as_published false store ids).2 := by
  intro h
  have hne : ids.isEmpty = false := by
    cases ids with
    | nil => cases hi
    | cons a l => rfl
  have h2 : (mark_data_as_published false store ids).2
      = store.map (fun r =>
          if ids.contains r.id then { r with is_published := true } else r) := by
    unfold mark_data_as_published
    simp [hne]
  rw [h2] at h
  simp only [unpublishedIds, List.mem_map, List.mem_filter] at h
  obtain ⟨r, ⟨hr, hpub⟩, hid⟩ := h
  obtain ⟨r0, hr0, hfr⟩ := hr
  by_cases hcont : ids.contains r0.id = true
  · rw [hcont] at hfr
    simp at hfr
    rw [← hfr] at hpub
    simp at hpub
  · rw [Bool.eq_false_iff.mpr hcont] at hfr
    simp at hfr
    rw [hfr] at hcont
    rw [hid] at hcont
    exact hcont (List.elem_eq_true_of_mem hi)

lemma fetch_empty_of_no_unpub (store : Store) (fetchErr : Bool) (limit : Nat)
    (h : unpublishedIds store = []) :
    fetch_unpublished_data fetchErr store limit = [] := by
  have hf : store.filter (fun r => !r.is_published) = [] := by
    have := List.map_eq_nil_iff.mp h
    exact this
  unfold fetch_unpublished_data
  by_cases he : fetchErr = true
  · simp [he]
  · simp [Bool.eq_false_iff.mpr he, hf, sortByTs]

lemma main_true (parses : String → Bool) (apis : List (ApiConfig × HttpResult))
    (mqtts : List (MqttConfig × MqttEnv)) (fetchErr markErr : Bool) (store : Store) :
    main true parses apis mqtts fetchErr markErr store
      = mainCore parses apis mqtts fetchErr markErr store := rfl

lemma main_false (parses : String → Bool) (apis : List (ApiConfig × HttpResult))
    (mqtts : List (MqttConfig × MqttEnv)) (fetchErr markErr : Bool) (store : Store) :
    main false parses apis mqtts fetchErr markErr store
      = ⟨1, [], 0, 0, none, store⟩ := rfl

lemma mainCore_empty (parses : String → Bool) (apis : List (ApiConfig × HttpResult))
    (mqtts : List (MqttConfig × MqttEnv)) (fetchErr markErr : Bool) (store : Store)
    (h : (fetch_unpublished_data fetchErr store 50).isEmpty = true) :
    mainCore parses apis mqtts fetchErr markErr store
      = ⟨0, fetch_unpublished_data fetchErr store 50, 0, 0, none, store⟩ := by
  simp [mainCore, h]

lemma mainCore_commit (parses : String → Bool) (apis : List (ApiConfig × HttpResult))
    (mqtts : List (MqttConfig × MqttEnv)) (fetchErr markErr : Bool) (store : Store)
    (h : (fetch_unpublished_data fetchErr store 50).isEmpty = false)
    (hd : (dispatch parses apis mqtts (fetch_unpublished_data fetchErr store 50)).1
      = true) :
    mainCore parses apis mqtts fetchErr markErr store
      = ⟨0, fetch_unpublished_data fetchErr store 50,
          (dispatch parses apis mqtts (fetch_unpublished_data fetchErr store 50)).2.1,
          (dispatch parses apis mqtts (fetch_unpublished_data fetchErr store 50)).2.2,
          some ((fetch_unpublished_data fetchErr store 50).map Prod.fst),
          (mark_data_as_published markErr store
            ((fetch_unpublished_data fetchErr store 50).map Prod.fst)).2⟩ := by
  simp [mainCore, h, hd]

lemma mainCore_retain (parses : String → Bool) (apis : List (ApiConfig × HttpResult))
    (mqtts : List (MqttConfig × MqttEnv)) (fetchErr markErr : Bool) (store : Store)
    (h : (fetch_unpublished_data fetchErr store 50).isEmpty = false)
    (hd : (dispatch parses apis mqtts (fetch_unpublished_data fetchErr store 50)).1
      = false) :
    mainCore parses apis mqtts fetchErr markErr store
      = ⟨0, fetch_unpublished_data fetchErr store 50,
          (dispatch parses apis mqtts (fetch_unpublished_data fetchErr store 50)).2.1,
          (dispatch parses apis mqtts (fetch_unpublished_data fetchErr store 50)).2.2,
          none, store⟩ := by
  simp [mainCore, h, hd]

lemma main_exitCode (parses : String → Bool) (apis : List (ApiConfig × HttpResult))
    (mqtts : List (MqttConfig × MqttEnv)) (fetchErr markErr : Bool) (store : Store) :
    (main true parses apis mqtts fetchErr markErr store).exitCode = 0 := by
  rw [main_true]
  by_cases h : (fetch_unpublished_data fetchErr store 50).isEmpty = true
  · rw [mainCore_empty _ _ _ _ _ _ h]
  · by_cases hd : (dispatch parses apis mqtts
        (fetch_unpublished_data fetchErr store 50)).1 = true
    · rw [mainCore_commit _ _ _ _ _ _ (Bool.eq_false_iff.mpr h) hd]
    · rw [mainCore_retain _ _ _ _ _ _ (Bool.eq_false_iff.mpr h)
        (Bool.eq_false_iff.mpr hd)]

lemma unpub_main_subset (configsOk : Bool) (parses : String → Bool)
    (apis : List (ApiConfig × HttpResult)) (mqtts : List (MqttConfig × MqttEnv))
    (fetchErr markErr : Bool) (store : Store) :
    unpublishedIds (main configsOk parses apis mqtts fetchErr markErr store).store
      ⊆ unpublishedIds store := by
  intro i hi
  cases configsOk with
  | false => rwa [main_false] at hi
  | true =>
    rw [main_true] at hi
    by_cases h : (fetch_unpublished_data fetchErr store 50).isEmpty = true
    · rwa [mainCore_empty _ _ _ _ _ _ h] at hi
    · by_cases hd : (dispatch parses apis mqtts
          (fetch_unpublished_data fetchErr store 50)).1 = true
      · rw [mainCore_commit _ _ _ _ _ _ (Bool.eq_false_iff.mpr h) hd] at hi
        exact unpub_mark_subset _ _ _ _ hi
      · rwa [mainCore_retain _ _ _ _ _ _ (Bool.eq_false_iff.mpr h)
          (Bool.eq_false_iff.mpr hd)] at hi

lemma main_retain_store (configsOk : Bool) (parses : String → Bool)
    (apis : List (ApiConfig × HttpResult)) (mqtts : List (MqttConfig × MqttEnv))
    (fetchErr markErr : Bool) (store : Store)
    (h : (sinkOutcomes parses apis mqtts
        (main configsOk parses apis mqtts fetchErr markErr store).fetched).all
          (fun b => b) = false) :
    (main configsOk parses apis mqtts fetchErr markErr store).store = store := by
  cases configsOk with
  | false => rw [main_false]
  | true =>
    rw [main_true] at h ⊢
    by_cases he : (fetch_unpublished_data fetchErr store 50).isEmpty = true
    · rw [mainCore_empty _ _ _ _ _ _ he]
    · by_cases hd : (dispatch parses apis mqtts
          (fetch_unpublished_data fetchErr store 50)).1 = true
      · exfalso
        rw [mainCore_commit _ _ _ _ _ _ (Bool.eq_false_iff.mpr he) hd] at h
        rw [← dispatch_fst] at h
        simp only [hd] at h
        cases h
      · rw [mainCore_retain _ _ _ _ _ _ (Bool.eq_false_iff.mpr he)
          (Bool.eq_false_iff.mpr hd)]

lemma main_fetched (parses : String → Bool) (apis : List (ApiConfig × HttpResult))
    (mqtts : List (MqttConfig × MqttEnv)) (fetchErr markErr : Bool) (store : Store) :
    (main true parses apis mqtts fetchErr markErr store).fetched
      = fetch_unpublished_data fetchErr store 50 := by
  rw [main_true]
  by_cases he : (fetch_unpublished_data fetchErr store 50).isEmpty = true
  · rw [mainCore_empty _ _ _ _ _ _ he]
  · by_cases hd : (dispatch parses apis mqtts
        (fetch_unpublished_data fetchErr store 50)).1 = true
    · rw [mainCore_commit _ _ _ _ _ _ (Bool.eq_false_iff.mpr he) hd]
    · rw [mainCore_retain _ _ _ _ _ _ (Bool.eq_false_iff.mpr he)
        (Bool.eq_false_iff.mpr hd)]

lemma mqttLoop_all_ack (ack : Nat → Bool) (hall : ∀ j, ack j = true) :
    ∀ (data : List (Nat × String)) (i0 : Nat), mqttLoop ack i0 data = (true, data) := by
  intro data
  induction data with
  | nil => intro i0; rfl
  | cons d rest ih =>
    intro i0
    simp [mqttLoop, hall i0, ih (i0 + 1)]

lemma mqttLoop_first_fail (ack : Nat → Bool) :
    ∀ (data : List (Nat × String)) (i0 i : Nat), i < data.length →
      ack (i0 + i) = false → (∀ j, j < i → ack (i0 + j) = true) →
      mqttLoop ack i0 data = (false, data.take i) := by
  intro data
  induction data with
  | nil =>
    intro i0 i hlen
    exact absurd hlen (by simp)
  | cons d rest ih =>
    intro i0 i hlen hfail hbef
    cases i with
    | zero =>
      have h0 : ack i0 = false := by simpa using hfail
      simp [mqttLoop, h0]
    | succ n =>
      have h0 : ack i0 = true := by simpa using hbef 0 (Nat.succ_pos n)
      have hrec : mqttLoop ack (i0 + 1) rest = (false, rest.take n) := by
        apply ih (i0 + 1) n (by simpa using hlen)
        · have harith : i0 + 1 + n = i0 + (n + 1) := by omega
          rw [harith]
          exact hfail
        · intro j hj
          have harith : i0 + 1 + j = i0 + (j + 1) := by omega
          rw [harith]
          exact hbef (j + 1) (by omega)
      simp [mqttLoop, h0, hrec]

/-! ### Claim theorems -/

/-- C4: `mark_data_as_published` is atomic over its listed ids: after any
call, either every row of the resulting table whose id is listed has its
published flag set, or the table is exactly the one before the call
(no id flipped); and a call that returns `False` leaves the table
unchanged, so a failing call has no partial effect on the store. -/
theorem C4_mark_published_atomic (markErr : Bool) (store : Store) (ids : List Nat) :
    ((∀ r ∈ (mark_data_as_published markErr store ids).2,
        r.id ∈ ids → r.is_published = true)
      ∨ (mark_data_as_published markErr store ids).2 = store)
    ∧ ((mark_data_as_published markErr store ids).1 = false →
        (mark_data_as_published markErr store ids).2 = store) := by
  refine ⟨?_, mark_fail_noop markErr store ids⟩
  by_cases h1 : ids.isEmpty = true
  · right; simp [mark_data_as_published, h1]
  · by_cases h2 : markErr = true
    · right; simp [mark_data_as_published, h1, h2]
    · left
      intro r hr hid
      have hmap : (mark_data_as_published markErr store ids).2
          = store.map (fun r =>
              if ids.contains r.id then { r with is_published := true } else r) := by
        simp [mark_data_as_published, h1, h2]
      rw [hmap] at hr
      obtain ⟨r0, hr0, hfr⟩ := List.mem_map.mp hr
      by_cases hcont : ids.contains r0.id = true
      · rw [if_pos hcont] at hfr
        rw [← hfr]
      · rw [if_neg hcont] at hfr
        exfalso
        rw [hfr] at hcont
        exact hcont (List.elem_eq_true_of_mem hid)

/-- C4 witness: instantiation of the atomicity theorem at a concrete
failing call and nothing else needed beyond the theorem itself. -/
theorem C4_mark_published_atomic_witness :
    ((∀ r ∈ (mark_data_as_published false storeOne [1]).2,
        r.id ∈ [1] → r.is_published = true)
      ∨ (mark_data_as_published false storeOne [1]).2 = storeOne)
    ∧ ((mark_data_as_published false storeOne [1]).1 = false →
        (mark_data_as_published false storeOne [1]).2 = storeOne) :=
  C4_mark_published_atomic false storeOne [1]

/-- C8 (code bug): `publish_to_api` delegates the success check to
`response.raise_for_status()`, which raises only for statuses 400-599;
a completed response with status 304 — not a 2xx status — is therefore
reported as success, although the source's own comment says it checks for
2xx, the spec says success = any 2xx status, and a transport error or a
4xx/5xx status is reported as failure. -/
theorem C8_status_304_reported_success :
    (publish_to_api parsesAll apiGood (HttpResult.status 304) [(1, "a")]).success
      = true
    ∧ ¬(200 ≤ 304 ∧ 304 < 300)
    ∧ (publish_to_api parsesAll apiGood (HttpResult.status 200) [(1, "a")]).success
        = true
    ∧ (publish_to_api parsesAll apiGood (HttpResult.status 500) [(1, "a")]).success
        = false
    ∧ (publish_to_api parsesAll apiGood HttpResult.transportError [(1, "a")]).success
        = false := by
  decide

/-- C6 counterexample: with one unpublished record in the store, a fetch
in which the driver raises `sqlite3.Error` returns the very `[]` an empty
store returns — the call site cannot tell a fetch failure from an empty
store — and the run terminates with exit status 0, not a non-zero
status. -/
theorem C6_counterexample :
    fetch_unpublished_data true storeOne 50 = fetch_unpublished_data false ([] : Store) 50
    ∧ (main true parsesAll [] [] true false storeOne).exitCode = 0
    ∧ unpublishedIds storeOne ≠ [] := by
  decide

/-- C6 amended: a `sqlite3.Error` during fetch is printed to stderr but
swallowed at the call site — `fetch_unpublished_data` returns `[]`, which
`main` treats exactly like an empty store: no sink is dispatched, the
store is not mutated, and the run terminates normally with exit status
0. -/
theorem C6_fetch_error_swallowed (parses : String → Bool)
    (apis : List (ApiConfig × HttpResult)) (mqtts : List (MqttConfig × MqttEnv))
    (markErr : Bool) (store : Store) :
    fetch_unpublished_data true store 50 = []
    ∧ (main true parses apis mqtts true markErr store).exitCode = 0
    ∧ (main true parses apis mqtts true markErr store).apiCalls = 0
    ∧ (main true parses apis mqtts true markErr store).mqttCalls = 0
    ∧ (main true parses apis mqtts true markErr store).markedIds = none
    ∧ (main true parses apis mqtts true markErr store).store = store := by
  have h : mainCore parses apis mqtts true markErr store
      = ⟨0, fetch_unpublished_data true store 50, 0, 0, none, store⟩ :=
    mainCore_empty parses apis mqtts true markErr store rfl
  rw [main_true, h]
  exact ⟨rfl, rfl, rfl, rfl, rfl, rfl⟩

/-- C7 counterexample: an enabled API sink whose `url` is missing is not a
fatal configuration error: the run terminates normally with exit status 0,
the batch is merely retained like any recoverable sink failure, and the
next run re-fetches the very same batch and retries — contradicting
"fatal with no retry" and "not treated as a recoverable sink failure that
merely retains the batch". -/
theorem C7_counterexample :
    (main true parsesAll [(apiNoUrl, HttpResult.status 200)] [] false false
        storeOne).exitCode = 0
    ∧ (main true parsesAll [(apiNoUrl, HttpResult.status 200)] [] false false
        storeOne).markedIds = none
    ∧ (main true parsesAll [(apiNoUrl, HttpResult.status 200)] [] false false
        storeOne).store = storeOne
    ∧ (main true parsesAll [(apiNoUrl, HttpResult.status 200)] [] false false
        (main true parsesAll [(apiNoUrl, HttpResult.status 200)] [] false false
          storeOne).store).fetched
      = (main true parsesAll [(apiNoUrl, HttpResult.status 200)] [] false false
          storeOne).fetched := by
  decide

/-- C7 amended: a missing required field on an enabled sink (`url` or
`api_key` for an HTTP sink, `host` or `topic_prefix` for an MQTT sink)
makes that sink call return failure without any network activity by that
sink; the coordinator treats this exactly like a recoverable sink
failure — the batch is retained, nothing is marked published, and the run
terminates normally (exit status 0), so the same failure recurs on every
subsequent run rather than aborting fatally. -/
theorem C7_missing_field_is_recoverable (parses : String → Bool) (cfg : ApiConfig)
    (res : HttpResult) (data : List (Nat × String)) (mcfg : MqttConfig)
    (menv : MqttEnv) (fetchErr markErr : Bool) (store : Store)
    (hA : cfg.enabled = true)
    (hmiss : strPresent cfg.url = false ∨ strPresent cfg.api_key = false)
    (hM : mcfg.enabled = true)
    (hmiss2 : strPresent mcfg.host = false
      ∨ strPresent ( MqttConfig.topic_prefix mcfg) = false) :
    publish_to_api parses cfg res data = ⟨false, false⟩
    ∧ publish_to_mqtt mcfg menv data = (false, [])
    ∧ (main true parses [(cfg, res)] [] fetchErr markErr store).exitCode = 0
    ∧ (main true parses [(cfg, res)] [] fetchErr markErr store).markedIds = none
    ∧ (main true parses [(cfg, res)] [] fetchErr markErr store).store = store := by
  have hapi : publish_to_api parses cfg res data = ⟨false, false⟩ := by
    unfold publish_to_api
    rw [hA]
    rcases hmiss with hm | hm <;> simp [hm]
  have hmq : publish_to_mqtt mcfg menv data = (false, []) := by
    unfold publish_to_mqtt
    rw [hM]
    rcases hmiss2 with hm | hm <;> simp [hm]
  refine ⟨hapi, hmq, main_exitCode _ _ _ _ _ _, ?_, ?_⟩
  · rw [main_true]
    by_cases he : (fetch_unpublished_data fetchErr store 50).isEmpty = true
    · rw [mainCore_empty _ _ _ _ _ _ he]
    · have hapi2 : publish_to_api parses cfg res
          (fetch_unpublished_data fetchErr store 50) = ⟨false, false⟩ := by
        unfold publish_to_api
        rw [hA]
        rcases hmiss with hm | hm <;> simp [hm]
      have hd : (dispatch parses [(cfg, res)] []
          (fetch_unpublished_data fetchErr store 50)).1 = false := by
        simp [dispatch, runApis, hapi2]
      rw [mainCore_retain _ _ _ _ _ _ (Bool.eq_false_iff.mpr he) hd]
  · rw [main_true]
    by_cases he : (fetch_unpublished_data fetchErr store 50).isEmpty = true
    · rw [mainCore_empty _ _ _ _ _ _ he]
    · have hapi2 : publish_to_api parses cfg res
          (fetch_unpublished_data fetchErr store 50) = ⟨false, false⟩ := by
        unfold publish_to_api
        rw [hA]
        rcases hmiss with hm | hm <;> simp [hm]
      have hd : (dispatch parses [(cfg, res)] []
          (fetch_unpublished_data fetchErr store 50)).1 = false := by
        simp [dispatch, runApis, hapi2]
      rw [mainCore_retain _ _ _ _ _ _ (Bool.eq_false_iff.mpr he) hd]

/-- C7 witness: the amended statement at a concrete API sink missing its
`url` and a concrete MQTT broker missing its `host`. -/
theorem C7_missing_field_is_recoverable_witness :
    publish_to_api parsesAll apiNoUrl (HttpResult.status 200) [(1, "a")]
      = ⟨false, false⟩
    ∧ publish_to_mqtt mqttNoHost envAllAck [(1, "a")] = (false, [])
    ∧ (main true parsesAll [(apiNoUrl, HttpResult.status 200)] [] false false
        storeOne).exitCode = 0
    ∧ (main true parsesAll [(apiNoUrl, HttpResult.status 200)] [] false false
        storeOne).markedIds = none
    ∧ (main true parsesAll [(apiNoUrl, HttpResult.status 200)] [] false false
        storeOne).store = storeOne :=
  C7_missing_field_is_recoverable parsesAll apiNoUrl (HttpResult.status 200)
    [(1, "a")] mqttNoHost envAllAck false false storeOne rfl
    (Or.inl rfl) rfl (Or.inl rfl)

/-- C5 counterexample: with one unpublished record and no sinks
configured, the two loops are vacuously successful, so the first run marks
the record published — after running the coordinator twice the set of
unpublished ids has changed from `[1]` to `[]`, contradicting "leaves the
set of unpublished record ids unchanged". -/
theorem C5_counterexample :
    unpublishedIds (main true parsesAll [] [] false false
        (main true parsesAll [] [] false false storeOne).store).store
      ≠ unpublishedIds storeOne := by
  decide

/-- C5 amended: running the coordinator twice with no sinks enabled
produces no error (both runs terminate normally with exit status 0), but
each run commits its fetched batch because an absent or disabled sink
counts as success: the ids fetched by the first run are no longer
unpublished afterwards, the unpublished set never grows, and it is left
unchanged exactly when the store had no unpublished records to begin
with. -/
theorem C5_no_sinks_commits_batch (parses : String → Bool) (store : Store) :
    (main true parses [] [] false false store).exitCode = 0
    ∧ (main true parses [] [] false false
        (main true parses [] [] false false store).store).exitCode = 0
    ∧ (∀ i ∈ (main true parses [] [] false false store).fetched.map Prod.fst,
        i ∉ unpublishedIds (main true parses [] [] false false store).store)
    ∧ unpublishedIds (main true parses [] [] false false
        (main true parses [] [] false false store).store).store
      ⊆ unpublishedIds store
    ∧ (unpublishedIds store = [] →
        (main true parses [] [] false false store).store = store
        ∧ (main true parses [] [] false false
            (main true parses [] [] false false store).store).store = store) := by
  refine ⟨main_exitCode _ _ _ _ _ _, main_exitCode _ _ _ _ _ _, ?_, ?_, ?_⟩
  · intro i hi
    rw [main_true]
    by_cases he : (fetch_unpublished_data false store 50).isEmpty = true
    · rw [main_true] at hi
      rw [mainCore_empty _ _ _ _ _ _ he] at hi
      rw [List.isEmpty_iff.mp he] at hi
      cases hi
    · have hd : (dispatch parses [] []
          (fetch_unpublished_data false store 50)).1 = true := rfl
      rw [main_true] at hi
      rw [mainCore_commit _ _ _ _ _ _ (Bool.eq_false_iff.mpr he) hd] at hi
      rw [mainCore_commit _ _ _ _ _ _ (Bool.eq_false_iff.mpr he) hd]
      exact mark_removes store _ i hi
  · exact fun i hi =>
      unpub_main_subset true parses [] [] false false store
        (unpub_main_subset true parses [] [] false false _ hi)
  · intro hu
    have h1 : (main true parses [] [] false false store).store = store := by
      rw [main_true, mainCore_empty _ _ _ _ _ _
        (by rw [fetch_empty_of_no_unpub store false 50 hu]; rfl)]
    refine ⟨h1, ?_⟩
    rw [h1]
    rw [main_true, mainCore_empty _ _ _ _ _ _
      (by rw [fetch_empty_of_no_unpub store false 50 hu]; rfl)]

/-- C5 witness: the amended statement at a concrete store of five
unpublished readings. -/
theorem C5_no_sinks_commits_batch_witness :
    (main true parsesAll [] [] false false storeFive).exitCode = 0
    ∧ (main true parsesAll [] [] false false
        (main true parsesAll [] [] false false storeFive).store).exitCode = 0
    ∧ (∀ i ∈ (main true parsesAll [] [] false false storeFive).fetched.map Prod.fst,
        i ∉ unpublishedIds (main true parsesAll [] [] false false storeFive).store)
    ∧ unpublishedIds (main true parsesAll [] [] false false
        (main true parsesAll [] [] false false storeFive).store).store
      ⊆ unpublishedIds storeFive
    ∧ (unpublishedIds storeFive = [] →
        (main true parsesAll [] [] false false storeFive).store = storeFive
        ∧ (main true parsesAll [] [] false false
            (main true parsesAll [] [] false false storeFive).store).store
          = storeFive) :=
  C5_no_sinks_commits_batch parsesAll storeFive

/-- C1: for every run whose fetched batch is non-empty,
`mark_data_as_published` is invoked with exactly the ids of the fetched
batch iff every attempted sink call — every configured API endpoint, then
every configured MQTT broker, in that order — reported success; and in the
concrete scenario of five unpublished records and two enabled sinks that
both succeed (API answering 200, MQTT confirming every message), one run
publishes all five records and a subsequent fetch of unpublished records
returns empty. -/
theorem C1_commit_iff_all_sinks_succeed (configsOk : Bool) (parses : String → Bool)
    (apis : List (ApiConfig × HttpResult)) (mqtts : List (MqttConfig × MqttEnv))
    (fetchErr markErr : Bool) (store : Store)
    (hne : (main configsOk parses apis mqtts fetchErr markErr store).fetched ≠ []) :
    ((main configsOk parses apis mqtts fetchErr markErr store).markedIds
        = some ((main configsOk parses apis mqtts fetchErr markErr
            store).fetched.map Prod.fst)
      ↔ (sinkOutcomes parses apis mqtts
            (main configsOk parses apis mqtts fetchErr markErr store).fetched).all
          (fun b => b) = true)
    ∧ unpublishedIds (main true parsesAll [(apiGood, HttpResult.status 200)]
        [(mqttGood, envAllAck)] false false storeFive).store = []
    ∧ fetch_unpublished_data false
        (main true parsesAll [(apiGood, HttpResult.status 200)]
          [(mqttGood, envAllAck)] false false storeFive).store 50 = [] := by
  refine ⟨?_, by decide, by decide⟩
  cases configsOk with
  | false =>
    rw [main_false] at hne
    exact absurd rfl hne
  | true =>
    rw [main_true] at hne ⊢
    by_cases he : (fetch_unpublished_data fetchErr store 50).isEmpty = true
    · rw [mainCore_empty _ _ _ _ _ _ he] at hne
      exact absurd (List.isEmpty_iff.mp he) hne
    · by_cases hd : (dispatch parses apis mqtts
          (fetch_unpublished_data fetchErr store 50)).1 = true
      · rw [mainCore_commit _ _ _ _ _ _ (Bool.eq_false_iff.mpr he) hd]
        rw [← dispatch_fst]
        simp [hd]
      · rw [mainCore_retain _ _ _ _ _ _ (Bool.eq_false_iff.mpr he)
          (Bool.eq_false_iff.mpr hd)]
        rw [← dispatch_fst]
        simp [hd]

/-- C1 witness: the commit-iff-all-success equivalence at a concrete run
with one unpublished record and one enabled API sink that answers 200. -/
theorem C1_commit_iff_all_sinks_succeed_witness :
    (((main true parsesAll [(apiGood, HttpResult.status 200)] [] false false
          storeOne).markedIds
        = some ((main true parsesAll [(apiGood, HttpResult.status 200)] [] false
            false storeOne).fetched.map Prod.fst)
      ↔ (sinkOutcomes parsesAll [(apiGood, HttpResult.status 200)] []
            (main true parsesAll [(apiGood, HttpResult.status 200)] [] false false
              storeOne).fetched).all (fun b => b) = true)
    ∧ unpublishedIds (main true parsesAll [(apiGood, HttpResult.status 200)]
        [(mqttGood, envAllAck)] false false storeFive).store = []
    ∧ fetch_unpublished_data false
        (main true parsesAll [(apiGood, HttpResult.status 200)]
          [(mqttGood, envAllAck)] false false storeFive).store 50 = []) :=
  C1_commit_iff_all_sinks_succeed true parsesAll
    [(apiGood, HttpResult.status 200)] [] false false storeOne (by decide)

/-- C2: the set of unpublished ids is monotonically non-increasing across
coordinator runs — the ids unpublished after any run are a subset of those
unpublished before it — and a run in which some attempted sink call failed
performs no store mutation, so the same batch is re-fetched verbatim on
the next run. -/
theorem C2_unpublished_monotone (configsOk : Bool) (parses : String → Bool)
    (apis : List (ApiConfig × HttpResult)) (mqtts : List (MqttConfig × MqttEnv))
    (fetchErr markErr : Bool) (store : Store) :
    unpublishedIds (main configsOk parses apis mqtts fetchErr markErr store).store
      ⊆ unpublishedIds store
    ∧ ((sinkOutcomes parses apis mqtts
          (main configsOk parses apis mqtts fetchErr markErr store).fetched).all
            (fun b => b) = false →
        (main configsOk parses apis mqtts fetchErr markErr store).store = store
        ∧ fetch_unpublished_data fetchErr
            (main configsOk parses apis mqtts fetchErr markErr store).store 50
          = fetch_unpublished_data fetchErr store 50) := by
  refine ⟨unpub_main_subset configsOk parses apis mqtts fetchErr markErr store, ?_⟩
  intro h
  have hs := main_retain_store configsOk parses apis mqtts fetchErr markErr store h
  exact ⟨hs, by rw [hs]⟩

/-- C2 witness: the monotonicity-and-retention statement at a concrete
failing run — one enabled API sink answering 500 on a store with one
unpublished record. -/
theorem C2_unpublished_monotone_witness :
    unpublishedIds (main true parsesAll [(apiGood, HttpResult.status 500)] []
        false false storeOne).store
      ⊆ unpublishedIds storeOne
    ∧ ((sinkOutcomes parsesAll [(apiGood, HttpResult.status 500)] []
          (main true parsesAll [(apiGood, HttpResult.status 500)] [] false false
            storeOne).fetched).all (fun b => b) = false →
        (main true parsesAll [(apiGood, HttpResult.status 500)] [] false false
          storeOne).store = storeOne
        ∧ fetch_unpublished_data false
            (main true parsesAll [(apiGood, HttpResult.status 500)] [] false false
              storeOne).store 50
          = fetch_unpublished_data false storeOne 50) :=
  C2_unpublished_monotone true parsesAll [(apiGood, HttpResult.status 500)] []
    false false storeOne

/-- C3: sink dispatch is strictly sequential in configured order (all API
endpoints, then all MQTT brokers) and short-circuits at the first failure:
if the outcomes of the configured sink calls on the fetched batch are `i`
successes followed by a failure, the run makes exactly `i + 1` sink calls
— no later sink is invoked — marks nothing published and leaves the store
untouched; in particular, with three API sinks of which the second fails,
only two calls are made and the batch's records stay unpublished. -/
theorem C3_sequential_short_circuit (configsOk : Bool) (parses : String → Bool)
    (apis : List (ApiConfig × HttpResult)) (mqtts : List (MqttConfig × MqttEnv))
    (fetchErr markErr : Bool) (store : Store) (i : Nat) (rest : List Bool)
    (hne : (main configsOk parses apis mqtts fetchErr markErr store).fetched ≠ [])
    (h : sinkOutcomes parses apis mqtts
          (main configsOk parses apis mqtts fetchErr markErr store).fetched
        = List.replicate i true ++ false :: rest) :
    ((main configsOk parses apis mqtts fetchErr markErr store).apiCalls
        + (main configsOk parses apis mqtts fetchErr markErr store).mqttCalls
      = i + 1
     ∧ (main configsOk parses apis mqtts fetchErr markErr store).markedIds = none
     ∧ (main configsOk parses apis mqtts fetchErr markErr store).store = store)
    ∧ (main true parsesAll
        [(apiGood, HttpResult.status 200), (apiGood, HttpResult.status 500),
         (apiGood, HttpResult.status 200)] [] false false storeOne).apiCalls = 2
    ∧ (main true parsesAll
        [(apiGood, HttpResult.status 200), (apiGood, HttpResult.status 500),
         (apiGood, HttpResult.status 200)] [] false false storeOne).mqttCalls = 0
    ∧ (main true parsesAll
        [(apiGood, HttpResult.status 200), (apiGood, HttpResult.status 500),
         (apiGood, HttpResult.status 200)] [] false false storeOne).markedIds = none
    ∧ unpublishedIds (main true parsesAll
        [(apiGood, HttpResult.status 200), (apiGood, HttpResult.status 500),
         (apiGood, HttpResult.status 200)] [] false false storeOne).store
      = unpublishedIds storeOne := by
  refine ⟨?_, by decide, by decide, by decide, by decide⟩
  cases configsOk with
  | false =>
    rw [main_false] at hne
    exact absurd rfl hne
  | true =>
    rw [main_true] at hne h ⊢
    by_cases he : (fetch_unpublished_data fetchErr store 50).isEmpty = true
    · rw [mainCore_empty _ _ _ _ _ _ he] at hne
      exact absurd (List.isEmpty_iff.mp he) hne
    · by_cases hd : (dispatch parses apis mqtts
          (fetch_unpublished_data fetchErr store 50)).1 = true
      · exfalso
        rw [mainCore_commit _ _ _ _ _ _ (Bool.eq_false_iff.mpr he) hd] at h
        have hall := dispatch_fst parses apis mqtts
          (fetch_unpublished_data fetchErr store 50)
        rw [hd, h, all_first_false] at hall
        exact Bool.noConfusion hall
      · rw [mainCore_retain _ _ _ _ _ _ (Bool.eq_false_iff.mpr he)
          (Bool.eq_false_iff.mpr hd)] at h ⊢
        refine ⟨?_, rfl, rfl⟩
        have hc := dispatch_count parses apis mqtts
          (fetch_unpublished_data fetchErr store 50)
        rw [h, scc_first_false] at hc
        exact hc

/-- C3 witness: the short-circuit statement at a concrete run with two API
sinks of which the first fails, so exactly one call is made. -/
theorem C3_sequential_short_circuit_witness :
    (((main true parsesAll
        [(apiGood, HttpResult.status 500), (apiGood, HttpResult.status 200)] []
        false false storeOne).apiCalls
        + (main true parsesAll
            [(apiGood, HttpResult.status 500), (apiGood, HttpResult.status 200)] []
            false false storeOne).mqttCalls
      = 0 + 1
     ∧ (main true parsesAll
          [(apiGood, HttpResult.status 500), (apiGood, HttpResult.status 200)] []
          false false storeOne).markedIds = none
     ∧ (main true parsesAll
          [(apiGood, HttpResult.status 500), (apiGood, HttpResult.status 200)] []
          false false storeOne).store = storeOne)
    ∧ (main true parsesAll
        [(apiGood, HttpResult.status 200), (apiGood, HttpResult.status 500),
         (apiGood, HttpResult.status 200)] [] false false storeOne).apiCalls = 2
    ∧ (main true parsesAll
        [(apiGood, HttpResult.status 200), (apiGood, HttpResult.status 500),
         (apiGood, HttpResult.status 200)] [] false false storeOne).mqttCalls = 0
    ∧ (main true parsesAll
        [(apiGood, HttpResult.status 200), (apiGood, HttpResult.status 500),
         (apiGood, HttpResult.status 200)] [] false false storeOne).markedIds = none
    ∧ unpublishedIds (main true parsesAll
        [(apiGood, HttpResult.status 200), (apiGood, HttpResult.status 500),
         (apiGood, HttpResult.status 200)] [] false false storeOne).store
      = unpublishedIds storeOne) :=
  C3_sequential_short_circuit true parsesAll
    [(apiGood, HttpResult.status 500), (apiGood, HttpResult.status 200)] []
    false false storeOne 0 [true] (by decide) (by decide)

/-- C9: for an enabled MQTT sink with host and topic prefix present, each
record of the batch is published as one message and awaited with a bounded
per-message confirmation; if the first unconfirmed message is at index `i`
(and the connection succeeded), the whole sink call returns failure with
only the `i` earlier messages delivered, the coordinator marks nothing and
keeps the store unchanged, the next run re-fetches the identical batch,
and a retry against a broker that confirms everything republishes every
record of that batch. -/
theorem C9_mqtt_partial_ack_fails_whole_call (parses : String → Bool)
    (cfg : MqttConfig) (env : MqttEnv) (store : Store) (i : Nat)
    (hen : cfg.enabled = true) (hh : strPresent cfg.host = true)
    (ht : strPresent ( MqttConfig.topic_prefix cfg) = true)
    (hc : env.connectOk = true)
    (hi : i < (main true parses [] [(cfg, env)] false false store).fetched.length)
    (hfail : env.ack i = false) (hbef : ∀ j, j < i → env.ack j = true) :
    publish_to_mqtt cfg env
        (main true parses [] [(cfg, env)] false false store).fetched
      = (false, (main true parses [] [(cfg, env)] false false store).fetched.take i)
    ∧ (main true parses [] [(cfg, env)] false false store).markedIds = none
    ∧ (main true parses [] [(cfg, env)] false false store).store = store
    ∧ (main true parses [] [(cfg, env)] false false
        (main true parses [] [(cfg, env)] false false store).store).fetched
      = (main true parses [] [(cfg, env)] false false store).fetched
    ∧ (publish_to_mqtt cfg ⟨true, fun _ => true⟩
        (main true parses [] [(cfg, env)] false false store).fetched).2
      = (main true parses [] [(cfg, env)] false false store).fetched := by
  have hfet : (main true parses [] [(cfg, env)] false false store).fetched
      = fetch_unpublished_data false store 50 :=
    main_fetched parses [] [(cfg, env)] false false store
  have hne : (fetch_unpublished_data false store 50).isEmpty = false := by
    rw [hfet] at hi
    cases hemp : fetch_unpublished_data false store 50 with
    | nil => rw [hemp] at hi; simp at hi
    | cons a l => rfl
  have hpm : publish_to_mqtt cfg env (fetch_unpublished_data false store 50)
      = (false, (fetch_unpublished_data false store 50).take i) := by
    simp only [publish_to_mqtt, hen, hh, ht, hc, Bool.not_true, Bool.or_self,
      Bool.false_eq_true, if_false]
    apply mqttLoop_first_fail env.ack _ 0 i (by rw [hfet] at hi; exact hi)
    · simpa using hfail
    · intro j hj
      simpa using hbef j hj
  have hd : (dispatch parses [] [(cfg, env)]
      (fetch_unpublished_data false store 50)).1 = false := by
    simp [dispatch, runApis, runMqtts, hpm]
  have hmain : main true parses [] [(cfg, env)] false false store
      = ⟨0, fetch_unpublished_data false store 50,
          (dispatch parses [] [(cfg, env)]
            (fetch_unpublished_data false store 50)).2.1,
          (dispatch parses [] [(cfg, env)]
            (fetch_unpublished_data false store 50)).2.2,
          none, store⟩ := by
    rw [main_true]
    exact mainCore_retain _ _ _ _ _ _ hne hd
  have hstore : (main true parses [] [(cfg, env)] false false store).store
      = store := by rw [hmain]
  refine ⟨by rw [hfet]; exact hpm, by rw [hmain], hstore, by rw [hstore], ?_⟩
  rw [hfet]
  simp only [publish_to_mqtt, hen, hh, ht, Bool.not_true, Bool.or_self,
    Bool.false_eq_true, if_false]
  rw [mqttLoop_all_ack (fun _ => true) (fun _ => rfl)]

/-- C9 witness: the partial-acknowledgment statement at a concrete run —
five unpublished records and an MQTT broker that confirms message 0 but
never confirms message 1 within the bound. -/
theorem C9_mqtt_partial_ack_fails_whole_call_witness :
    publish_to_mqtt mqttGood envFailSecond
        (main true parsesAll [] [(mqttGood, envFailSecond)] false false
          storeFive).fetched
      = (false, (main true parsesAll [] [(mqttGood, envFailSecond)] false false
          storeFive).fetched.take 1)
    ∧ (main true parsesAll [] [(mqttGood, envFailSecond)] false false
        storeFive).markedIds = none
    ∧ (main true parsesAll [] [(mqttGood, envFailSecond)] false false
        storeFive).store = storeFive
    ∧ (main true parsesAll [] [(mqttGood, envFailSecond)] false false
        (main true parsesAll [] [(mqttGood, envFailSecond)] false false
          storeFive).store).fetched
      = (main true parsesAll [] [(mqttGood, envFailSecond)] false false
          storeFive).fetched
    ∧ (publish_to_mqtt mqttGood ⟨true, fun _ => true⟩
        (main true parsesAll [] [(mqttGood, envFailSecond)] false false
          storeFive).fetched).2
      = (main true parsesAll [] [(mqttGood, envFailSecond)] false false
          storeFive).fetched :=
  C9_mqtt_partial_ack_fails_whole_call parsesAll mqttGood envFailSecond storeFive 1
    rfl rfl rfl rfl (by decide) (by decide) (by decide)

/-- C10: for an enabled HTTP sink with url and api key present, a batch
containing a payload that is not valid JSON makes `publish_to_api` return
failure without issuing any HTTP request; the run therefore marks nothing
and leaves the store unchanged, so every subsequent run re-fetches the
same batch and fails identically — iterating the coordinator any number of
times never changes the store. -/
theorem C10_invalid_json_fails_before_request (parses : String → Bool)
    (cfg : ApiConfig) (res : HttpResult) (fetchErr markErr : Bool) (store : Store)
    (hen : cfg.enabled = true) (hu : strPresent cfg.url = true)
    (hk : strPresent cfg.api_key = true)
    (hbad : ∃ row ∈ (main true parses [(cfg, res)] [] fetchErr markErr
        store).fetched, parses row.2 = false) :
    publish_to_api parses cfg res
        (main true parses [(cfg, res)] [] fetchErr markErr store).fetched
      = ⟨false, false⟩
    ∧ (main true parses [(cfg, res)] [] fetchErr markErr store).markedIds = none
    ∧ (main true parses [(cfg, res)] [] fetchErr markErr store).store = store
    ∧ ∀ n, (fun s => (main true parses [(cfg, res)] [] fetchErr markErr s).store)^[n]
        store = store := by
  have hfet : (main true parses [(cfg, res)] [] fetchErr markErr store).fetched
      = fetch_unpublished_data fetchErr store 50 :=
    main_fetched parses [(cfg, res)] [] fetchErr markErr store
  obtain ⟨row, hrow, hp⟩ := hbad
  rw [hfet] at hrow
  have hne : (fetch_unpublished_data fetchErr store 50).isEmpty = false := by
    cases hemp : fetch_unpublished_data fetchErr store 50 with
    | nil => rw [hemp] at hrow; cases hrow
    | cons a l => rfl
  have hall : (fetch_unpublished_data fetchErr store 50).all
      (fun row => parses row.2) = false := by
    rw [List.all_eq_false]
    exact ⟨row, hrow, by simp [hp]⟩
  have hapi : publish_to_api parses cfg res (fetch_unpublished_data fetchErr store 50)
      = ⟨false, false⟩ := by
    simp only [publish_to_api, hen, hu, hk, hall, Bool.not_true, Bool.or_self,
      Bool.false_eq_true, if_false, Bool.not_false, if_true]
  have hd : (dispatch parses [(cfg, res)] []
      (fetch_unpublished_data fetchErr store 50)).1 = false := by
    simp [dispatch, runApis, hapi]
  have hmain : main true parses [(cfg, res)] [] fetchErr markErr store
      = ⟨0, fetch_unpublished_data fetchErr store 50,
          (dispatch parses [(cfg, res)] []
            (fetch_unpublished_data fetchErr store 50)).2.1,
          (dispatch parses [(cfg, res)] []
            (fetch_unpublished_data fetchErr store 50)).2.2,
          none, store⟩ := by
    rw [main_true]
    exact mainCore_retain _ _ _ _ _ _ hne hd
  have hstore : (main true parses [(cfg, res)] [] fetchErr markErr store).store
      = store := by rw [hmain]
  refine ⟨by rw [hfet]; exact hapi, by rw [hmain], hstore, ?_⟩
  intro n
  induction n with
  | zero => rfl
  | succ m ih =>
    rw [Function.iterate_succ_apply, hstore]
    exact ih

/-- C10 witness: the statement at a concrete store whose single record
carries the payload "bad", rejected by the JSON collaborator. -/
theorem C10_invalid_json_fails_before_request_witness :
    publish_to_api parsesNotBad apiGood (HttpResult.status 200)
        (main true parsesNotBad [(apiGood, HttpResult.status 200)] [] false false
          storeBadJson).fetched
      = ⟨false, false⟩
    ∧ (main true parsesNotBad [(apiGood, HttpResult.status 200)] [] false false
        storeBadJson).markedIds = none
    ∧ (main true parsesNotBad [(apiGood, HttpResult.status 200)] [] false false
        storeBadJson).store = storeBadJson
    ∧ ∀ n, (fun s => (main true parsesNotBad [(apiGood, HttpResult.status 200)] []
        false false s).store)^[n] storeBadJson = storeBadJson :=
  C10_invalid_json_fails_before_request parsesNotBad apiGood (HttpResult.status 200)
    false false storeBadJson rfl rfl rfl (by decide)

end Publish
